import Mathlib

/-!
Verification development for the capturedisp frame pipeline.

Shallow embedding of the buffer manager and format converters of
src/capture.c and of the border-detection and crop logic of src/main.c.
Byte buffers (raw frames, the RGBA scratch buffer) are modelled as
functions from byte index to byte value, or as explicit lists of written
bytes; C machine integers are modelled as Nat/Int.
-/

namespace Capturedisp

/-- The C clamp idiom v < 0 ? 0 : (v > 255 ? 255 : v), producing a uint8 value. -/
def clamp8 (v : Int) : Nat :=
  if v < 0 then 0 else if 255 < v then 255 else v.toNat

/-- One YUYV macropixel: bytes [Y0, U, Y1, V] converted to two RGBA pixels,
as in the loop bodies of yuyv_to_rgba_fast (src/capture.c) and
yuyv_crop_to_rgba (src/main.c), which are identical. BT.601 fixed point;
the C arithmetic right shift by 8 is modelled as floor division by 256. -/
def yuyv_macropixel (y0 u y1 v : Nat) : List Nat :=
  let uu : Int := (u : Int) - 128
  let vv : Int := (v : Int) - 128
  let ruv := Int.fdiv (359 * vv) 256
  let guv := Int.fdiv (88 * uu + 183 * vv) 256
  let buv := Int.fdiv (454 * uu) 256
  [clamp8 ((y0 : Int) + ruv), clamp8 ((y0 : Int) - guv), clamp8 ((y0 : Int) + buv), 255,
   clamp8 ((y1 : Int) + ruv), clamp8 ((y1 : Int) - guv), clamp8 ((y1 : Int) + buv), 255]

/-- The macropixel loop: n macropixels read from src starting at byte offset
base, 8 output bytes appended per step. -/
def yuyv_convert_loop (src : Nat → Nat) : Nat → Nat → List Nat
  | _, 0 => []
  | base, n + 1 =>
      yuyv_macropixel (src base) (src (base + 1)) (src (base + 2)) (src (base + 3))
        ++ yuyv_convert_loop src (base + 4) n

/-- yuyv_to_rgba_fast (src/capture.c): width*height/2 macropixels starting at
source byte offset 0. -/
def yuyv_to_rgba_fast (src : Nat → Nat) (width height : Nat) : List Nat :=
  yuyv_convert_loop src 0 (width * height / 2)

/-- yuyv_crop_to_rgba (src/main.c). crop_x is first forced even
(crop_x &= ~1, here 2*(crop_x/2)). Row y of the output is written at
destination byte offset y*crop_w*4 and converts the macropixels starting at
source byte offset ((crop_y+y)*src_w + crop_x)*2; the inner loop runs for
x = 0, 2, ... while x < crop_w, i.e. (crop_w+1)/2 steps. Each list entry is
the pair (destination byte offset, bytes written there). src_h is unused by
the C code. -/
def yuyv_crop_to_rgba (src : Nat → Nat) (src_w src_h : Nat)
    (crop_x crop_y crop_w crop_h : Nat) : List (Nat × List Nat) :=
  (List.range crop_h).map fun y =>
    (y * crop_w * 4,
     yuyv_convert_loop src (((crop_y + y) * src_w + 2 * (crop_x / 2)) * 2) ((crop_w + 1) / 2))

/-- A decoded JPEG image, abstracting the libjpeg decompressor output: the
output_width/output_height the decoder reports and the RGB rows delivered by
jpeg_read_scanlines. -/
structure JpegImage where
  width : Nat
  height : Nat
  pixel : Nat → Nat → Nat × Nat × Nat

/-- One byte of the destination buffer after mjpeg_to_rgba (src/capture.c).
decoded = none models the longjmp error path (decode failure or truncated
data at any point): memset(rgba, 0, width*height*4). On success the scanline
loop writes rows y with y < height and y < output_height, and in each row the
columns x with x < width and x < output_width; channel 3 is set to 255.
Bytes outside that region keep the previous contents of the reused
rgb_buffer, modelled by old. -/
def mjpeg_byte (decoded : Option JpegImage) (width height : Nat)
    (old : Nat → Nat) (i : Nat) : Nat :=
  match decoded with
  | none => 0
  | some img =>
    let p := i / 4
    let x := p % width
    let y := p / width
    if y < height ∧ y < img.height ∧ x < width ∧ x < img.width then
      if i % 4 = 0 then (img.pixel x y).1
      else if i % 4 = 1 then (img.pixel x y).2.1
      else if i % 4 = 2 then (img.pixel x y).2.2
      else 255
    else old i

/-- The width*height*4 byte destination buffer after mjpeg_to_rgba. -/
def mjpeg_to_rgba (decoded : Option JpegImage) (width height : Nat)
    (old : Nat → Nat) : List Nat :=
  (List.range (width * height * 4)).map (mjpeg_byte decoded width height old)

/-- The two pixel encodings the open negotiation can record
(V4L2_PIX_FMT_MJPEG and V4L2_PIX_FMT_YUYV). -/
inductive PixFmt
  | MJPEG
  | YUYV
deriving DecidableEq

/-- capture_get_frame (src/capture.c): raw = none models capture_get_frame_raw
returning NULL (no frame ready), in which case the function returns NULL;
otherwise the frame is converted along the path selected by the negotiated
format and the (non-null) rgb_buffer contents are returned. decoded abstracts
the libjpeg outcome on the raw bytes. -/
def capture_get_frame (fmt : PixFmt) (width height : Nat) (raw : Option (Nat → Nat))
    (decoded : Option JpegImage) (old : Nat → Nat) : Option (List Nat) :=
  match raw with
  | none => none
  | some src =>
    match fmt with
    | PixFmt.YUYV => some (yuyv_to_rgba_fast src width height)
    | PixFmt.MJPEG => some (mjpeg_to_rgba decoded width height old)

/-! ### Border detector (src/main.c) -/

/-- sample_yuyv_luma: the Y byte of pixel (x, y) in a packed YUYV frame,
yuyv[(y*width + x)*2]. -/
def sample_yuyv_luma (yuyv : Nat → Nat) (width x y : Nat) : Nat :=
  yuyv ((y * width + x) * 2)

/-- The per-point test of every edge scan in scan_for_game_area:
luma > content_threshold (40) and luma > border_luma + 15. -/
def border_scan_hit (yuyv : Nat → Nat) (width border_luma x y : Nat) : Bool :=
  let luma := sample_yuyv_luma yuyv width x y
  decide (40 < luma) && decide (border_luma + 15 < luma)

/-- Left scan of scan_for_game_area: for x = 150, 152, ... while x < width/2,
the first x whose sample at (x, height/2) passes the test. -/
def left_edge_find (yuyv : Nat → Nat) (width height border_luma : Nat) : Option Nat :=
  (List.range' 150 ((width / 2 - 150 + 1) / 2) 2).find?
    (fun x => border_scan_hit yuyv width border_luma x (height / 2))

/-- left_edge after the scan: the hit if any, else the initial value 0. -/
def left_edge (yuyv : Nat → Nat) (width height border_luma : Nat) : Nat :=
  (left_edge_find yuyv width height border_luma).getD 0

/-- Right scan: for x = width-150, width-152, ... while x > width/2, the first
x whose sample at (x, height/2) passes the test. -/
def right_edge_find (yuyv : Nat → Nat) (width height border_luma : Nat) : Option Nat :=
  ((List.range ((width - 150 - width / 2 + 1) / 2)).map (fun k => width - 150 - 2 * k)).find?
    (fun x => border_scan_hit yuyv width border_luma x (height / 2))

/-- right_edge after the scan: x+1 for the hit, else the initial value width. -/
def right_edge (yuyv : Nat → Nat) (width height border_luma : Nat) : Nat :=
  match right_edge_find yuyv width height border_luma with
  | some x => x + 1
  | none => width

/-- Top scan: for y = 120, 122, ... while y < height/2, the first y whose
sample at (center_x, y) passes the test. -/
def top_edge_find (yuyv : Nat → Nat) (width height border_luma center_x : Nat) : Option Nat :=
  (List.range' 120 ((height / 2 - 120 + 1) / 2) 2).find?
    (fun y => border_scan_hit yuyv width border_luma center_x y)

/-- top_edge after the scan: the hit if any, else the initial value 0. -/
def top_edge (yuyv : Nat → Nat) (width height border_luma center_x : Nat) : Nat :=
  (top_edge_find yuyv width height border_luma center_x).getD 0

/-- Bottom scan: for y = height-100, height-102, ... while y > height/2, the
first y whose sample at (scan_x, y) passes the test. -/
def bottom_edge_find (yuyv : Nat → Nat) (width height border_luma scan_x : Nat) : Option Nat :=
  ((List.range ((height - 100 - height / 2 + 1) / 2)).map (fun k => height - 100 - 2 * k)).find?
    (fun y => border_scan_hit yuyv width border_luma scan_x y)

/-- bottom_edge after the scan: y+1 for the hit, else the initial value height. -/
def bottom_edge (yuyv : Nat → Nat) (width height border_luma scan_x : Nat) : Nat :=
  match bottom_edge_find yuyv width height border_luma scan_x with
  | some y => y + 1
  | none => height

/-- The border brightness baseline of scan_for_game_area, sampled at
(200, height/2). -/
def scan_border_luma (yuyv : Nat → Nat) (width height : Nat) : Nat :=
  sample_yuyv_luma yuyv width 200 (height / 2)

/-- The left_edge value computed inside scan_for_game_area. -/
def scan_left (yuyv : Nat → Nat) (width height : Nat) : Nat :=
  left_edge yuyv width height (scan_border_luma yuyv width height)

/-- The right_edge value computed inside scan_for_game_area. -/
def scan_right (yuyv : Nat → Nat) (width height : Nat) : Nat :=
  right_edge yuyv width height (scan_border_luma yuyv width height)

/-- center_x of scan_for_game_area: the midpoint of left and right edges,
replaced by width/2 when below 200. -/
def scan_center_x (yuyv : Nat → Nat) (width height : Nat) : Nat :=
  if (scan_left yuyv width height + scan_right yuyv width height) / 2 < 200 then width / 2
  else (scan_left yuyv width height + scan_right yuyv width height) / 2

/-- The top_edge value computed inside scan_for_game_area. -/
def scan_top (yuyv : Nat → Nat) (width height : Nat) : Nat :=
  top_edge yuyv width height (scan_border_luma yuyv width height)
    (scan_center_x yuyv width height)

/-- scan_x_bottom of scan_for_game_area: left_edge + 50 when a left edge was
found (left_edge > 0), else width/3. -/
def scan_bottom_x (yuyv : Nat → Nat) (width height : Nat) : Nat :=
  if 0 < scan_left yuyv width height then scan_left yuyv width height + 50 else width / 3

/-- The bottom_edge value computed inside scan_for_game_area. -/
def scan_bottom (yuyv : Nat → Nat) (width height : Nat) : Nat :=
  bottom_edge yuyv width height (scan_border_luma yuyv width height)
    (scan_bottom_x yuyv width height)

/-- scan_for_game_area (src/main.c): the four edge scans, the validation
left_edge >= 50, detected_w >= 200, detected_h >= 200, and the 4-pixel
snapping of the accepted rectangle. Returns none exactly when the C function
returns false (NotFound). -/
def scan_for_game_area (yuyv : Nat → Nat) (width height : Nat) :
    Option (Nat × Nat × Nat × Nat) :=
  if scan_left yuyv width height < 50 ∨
     scan_right yuyv width height - scan_left yuyv width height < 200 ∨
     scan_bottom yuyv width height - scan_top yuyv width height < 200 then none
  else
    some (4 * (scan_left yuyv width height / 4),
          4 * (scan_top yuyv width height / 4),
          4 * ((scan_right yuyv width height - 4 * (scan_left yuyv width height / 4) + 3) / 4),
          4 * ((scan_bottom yuyv width height - 4 * (scan_top yuyv width height / 4) + 3) / 4))

/-- The classification labels of the continuous auto-detector
(detected_preset_t in src/main.c). PRESET_NONE is the spec label Unframed,
PRESET_NES_SWITCH is LayoutA, PRESET_SNES_SWITCH is LayoutB. -/
inductive DetectedPreset
  | PRESET_NONE
  | PRESET_NES_SWITCH
  | PRESET_SNES_SWITCH
deriving DecidableEq

/-- The four probe-point samples of border_changed, at (400, 200), (400, 400),
(400, 600), (400, 800). -/
def probe_samples (yuyv : Nat → Nat) (width : Nat) : List Nat :=
  [sample_yuyv_luma yuyv width 400 200, sample_yuyv_luma yuyv width 400 400,
   sample_yuyv_luma yuyv width 400 600, sample_yuyv_luma yuyv width 400 800]

/-- Sum of absolute differences between two sample lists, as accumulated by
the loop in border_changed. -/
def luma_abs_diff (a b : List Nat) : Nat :=
  (List.zipWith (fun (s l : Nat) => ((s : Int) - (l : Int)).natAbs) a b).sum

/-- border_changed (src/main.c). Returns the decision together with the
updated last_border_luma samples (the C function overwrites the stored
samples unconditionally, before the early PRESET_NONE return). When the
current label is PRESET_NONE it always answers true; otherwise it answers
diff > 60. -/
def border_changed (yuyv : Nat → Nat) (width : Nat) (current : DetectedPreset)
    (last : List Nat) : Bool × List Nat :=
  let samples := probe_samples yuyv width
  let diff := luma_abs_diff samples last
  if current = DetectedPreset.PRESET_NONE then (true, samples)
  else (decide (60 < diff), samples)

/-- detect_preset (src/main.c): the fixed-probe decision tree choosing among
the three labels. height is unused by the C code. -/
def detect_preset (yuyv : Nat → Nat) (width height : Nat) : DetectedPreset :=
  let b1 := sample_yuyv_luma yuyv width 400 300
  let b2 := sample_yuyv_luma yuyv width 400 500
  let b3 := sample_yuyv_luma yuyv width 400 700
  if 30 < b1 ∨ 30 < b2 ∨ 30 < b3 then DetectedPreset.PRESET_NONE
  else
    let y85 := sample_yuyv_luma yuyv width 700 85
    let y95 := sample_yuyv_luma yuyv width 700 95
    if 20 < y85 then DetectedPreset.PRESET_NES_SWITCH
    else if 20 < y95 then DetectedPreset.PRESET_SNES_SWITCH
    else
      let center := sample_yuyv_luma yuyv width 960 540
      if 10 < center then
        if 15 < sample_yuyv_luma yuyv width 700 83 then DetectedPreset.PRESET_NES_SWITCH
        else DetectedPreset.PRESET_SNES_SWITCH
      else DetectedPreset.PRESET_NONE

/-- apply_detected_preset (src/main.c): the fixed crop rectangle (x, y, w, h)
of each label. -/
def apply_detected_preset : DetectedPreset → Nat × Nat × Nat × Nat
  | DetectedPreset.PRESET_NES_SWITCH => (448, 83, 1024, 912)
  | DetectedPreset.PRESET_SNES_SWITCH => (448, 92, 1024, 896)
  | DetectedPreset.PRESET_NONE => (0, 0, 1920, 1080)

/-- The detector state mutated by the main loop of src/main.c: the
auto_detect flag, last_detected, last_border_luma, detect_cooldown and the
current crop rectangle (crop_x, crop_y, crop_w, crop_h). -/
structure DetectState where
  auto_detect : Bool
  last_detected : DetectedPreset
  last_border_luma : List Nat
  detect_cooldown : Int
  crop : Nat × Nat × Nat × Nat
deriving DecidableEq

/-- The eligible branch of the per-frame auto-detection block of the main
loop (src/main.c): run border_changed (always storing the fresh samples), on
a reported change run detect_preset, and on a changed label install the
fixed crop of the new label; finally reset the cooldown to 30. -/
def auto_detect_eval (yuyv : Nat → Nat) (width height : Nat) (st : DetectState) :
    DetectState :=
  let bc := border_changed yuyv width st.last_detected st.last_border_luma
  let stS := { st with last_border_luma := bc.2 }
  let stD :=
    if bc.1 = true then
      let detected := detect_preset yuyv width height
      if detected ≠ stS.last_detected then
        { stS with last_detected := detected, crop := apply_detected_preset detected }
      else stS
    else stS
  { stD with detect_cooldown := 30 }

/-- The trailing cooldown decrement of the main loop:
if (detect_cooldown > 0) detect_cooldown--. -/
def cooldown_tick (st : DetectState) : DetectState :=
  if 0 < st.detect_cooldown then { st with detect_cooldown := st.detect_cooldown - 1 }
  else st

/-- One whole pass of the auto-detection block: the guarded evaluation
followed by the cooldown decrement. -/
def auto_detect_step (yuyv : Nat → Nat) (width height : Nat) (st : DetectState) :
    DetectState :=
  cooldown_tick
    (if st.auto_detect = true ∧ st.detect_cooldown ≤ 0 then
       auto_detect_eval yuyv width height st
     else st)

/-- The manual border scan block of the main loop (src/main.c, pending
border scan handling): when the scan finds a rectangle it becomes the crop,
auto_detect is set to false and last_detected to PRESET_NONE; when the scan
finds nothing the state is left untouched. -/
def process_border_scan (yuyv : Nat → Nat) (width height : Nat) (st : DetectState) :
    DetectState :=
  match scan_for_game_area yuyv width height with
  | some (x, y, w, h) =>
      { st with crop := (x, y, w, h), auto_detect := false,
                last_detected := DetectedPreset.PRESET_NONE }
  | none => st

/-! ### Buffer manager (src/capture.c) -/

/-- Ownership state of one driver-shared buffer slot: Queued = owned by the
driver (enqueued via QBUF), Acquired = dequeued to the consumer (DQBUF). -/
inductive SlotState
  | Queued
  | Acquired
deriving DecidableEq

/-- The slot-ownership bookkeeping of a capture_ctx_t: one state per mapped
buffer slot, plus ctx->current_index. -/
structure BufManagerState where
  slots : List SlotState
  current_index : Nat
deriving DecidableEq

/-- capture_get_frame_raw (src/capture.c) with the VIDIOC_DQBUF outcome
abstracted as resp: none models EAGAIN (no frame ready, NULL returned) and
any other DQBUF failure; some i models the driver dequeuing slot i (a driver
only dequeues a currently queued slot). On success the code stores the
returned index into ctx->current_index unconditionally and returns the
pointer of slot i. -/
def capture_get_frame_raw (st : BufManagerState) (resp : Option Nat) :
    BufManagerState × Option Nat :=
  match resp with
  | none => (st, none)
  | some i => ({ slots := st.slots.set i SlotState.Acquired, current_index := i }, some i)

/-- capture_return_buffer (src/capture.c): QBUF of slot ctx->current_index,
returning that slot (and only that slot) to the driver. -/
def capture_return_buffer (st : BufManagerState) : BufManagerState :=
  { st with slots := st.slots.set st.current_index SlotState.Queued }

/-- Abstraction of the V4L2 driver responses consumed by
capture_open_buffers: whether the device opens, the QUERYCAP capability bit,
the S_FMT outcomes for MJPEG and YUYV, the dimensions the driver settles on,
the REQBUFS grant as a function of the requested count, and whether the
QUERYBUF/mmap/QBUF/STREAMON sequence succeeds. -/
structure DriverModel where
  device_opens : Bool
  has_capture_cap : Bool
  mjpeg_honored : Bool
  yuyv_ok : Bool
  granted_width : Nat
  granted_height : Nat
  grant_buffers : Nat → Nat
  setup_ok : Bool

/-- The fields of capture_ctx_t relevant to open negotiation. -/
structure CaptureCtx where
  width : Nat
  height : Nat
  format : PixFmt
  buffer_count : Nat
deriving DecidableEq

/-- capture_open_buffers (src/capture.c): open the device, check the capture
capability, negotiate MJPEG first then YUYV, then request buffers with
req.count = num_buffers (the argument is placed in the REQBUFS request
unmodified, with no clamping anywhere in the function) and record
ctx->buffer_count = req.count as granted by the driver. -/
def capture_open_buffers (d : DriverModel) (num_buffers : Nat) : Option CaptureCtx :=
  if d.device_opens = false then none
  else if d.has_capture_cap = false then none
  else if d.mjpeg_honored = false ∧ d.yuyv_ok = false then none
  else if d.setup_ok = false then none
  else some { width := d.granted_width, height := d.granted_height,
              format := if d.mjpeg_honored = true then PixFmt.MJPEG else PixFmt.YUYV,
              buffer_count := d.grant_buffers num_buffers }

/-- The buffer-count control of the main loop (src/main.c, key B handler):
buffer_count++, wrapping to 1 above 4. -/
def next_buffer_count (b : Int) : Int :=
  if 4 < b + 1 then 1 else b + 1

/-! ### Concrete test frames and drivers -/

/-- The all-black frame: every byte 0. -/
def frameZero : Nat → Nat := fun _ => 0

/-- A 1920x1080 frame whose luma is 200 on the row y = 85 and 0 everywhere
else (chroma bytes all 0). -/
def frameA : Nat → Nat := fun i =>
  if i % 2 = 0 ∧ i / 2 / 1920 = 85 then 200 else 0

/-- A 400x260 frame with a single bright pixel at (150, 130): exactly the
byte at index (130*400 + 150)*2 is 255, every other byte is 0. -/
def frameB : Nat → Nat := fun i => if i = 104300 then 255 else 0

/-- A fully cooperative driver that grants exactly the requested buffer
count (a response V4L2 permits). -/
def driverGrantsRequest : DriverModel :=
  { device_opens := true, has_capture_cap := true, mjpeg_honored := false,
    yuyv_ok := true, granted_width := 1920, granted_height := 1080,
    grant_buffers := fun n => n, setup_ok := true }

/-! ### Helper lemmas -/

theorem yuyv_macropixel_length (y0 u y1 v : Nat) : (yuyv_macropixel y0 u y1 v).length = 8 :=
  rfl

theorem yuyv_convert_loop_length (src : Nat → Nat) :
    ∀ (n base : Nat), (yuyv_convert_loop src base n).length = 8 * n := by
  intro n
  induction n with
  | zero => intro base; rfl
  | succ k ih =>
      intro base
      simp only [yuyv_convert_loop, List.length_append, yuyv_macropixel_length, ih]
      omega

theorem getD_set_ne {α : Type} (l : List α) (i j : Nat) (a d : α) (h : i ≠ j) :
    (l.set i a).getD j d = l.getD j d := by
  simp only [List.getD_eq_getElem?_getD, List.getElem?_set_ne h]

theorem getD_map_range {α : Type} (f : Nat → α) (n i : Nat) (d : α) (h : i < n) :
    ((List.range n).map f).getD i d = f i := by
  have hl : i < ((List.range n).map f).length := by simp [h]
  rw [List.getD_eq_getElem _ _ hl]
  simp

/-- Every fourth byte (channel 3) produced by the macropixel loop is 255. -/
theorem yuyv_convert_loop_alpha (src : Nat → Nat) :
    ∀ (n base j : Nat), j < 8 * n → j % 4 = 3 →
      (yuyv_convert_loop src base n).getD j 0 = 255 := by
  intro n
  induction n with
  | zero => intro base j hj _; omega
  | succ k ih =>
      intro base j hj hm
      simp only [yuyv_convert_loop]
      by_cases h8 : j < 8
      · rw [List.getD_append _ _ _ _ (by rw [yuyv_macropixel_length]; exact h8)]
        have hj37 : j = 3 ∨ j = 7 := by omega
        rcases hj37 with h | h <;> subst h <;> rfl
      · rw [List.getD_append_right _ _ _ _ (by rw [yuyv_macropixel_length]; omega)]
        rw [yuyv_macropixel_length]
        exact ih (base + 4) (j - 8) (by omega) (by omega)

/-- On an all-128 source the macropixel loop produces 128 on every color
channel and 255 on every alpha channel. -/
theorem yuyv_convert_loop_gray (src : Nat → Nat) (hsrc : ∀ i, src i = 128) :
    ∀ (n base j : Nat), j < 8 * n →
      (yuyv_convert_loop src base n).getD j 0 = if j % 4 = 3 then 255 else 128 := by
  intro n
  induction n with
  | zero => intro base j hj; omega
  | succ k ih =>
      intro base j hj
      simp only [yuyv_convert_loop]
      rw [hsrc base, hsrc (base + 1), hsrc (base + 2), hsrc (base + 3)]
      by_cases h8 : j < 8
      · rw [List.getD_append _ _ _ _ (by rw [yuyv_macropixel_length]; exact h8)]
        have hmp : yuyv_macropixel 128 128 128 128 = [128, 128, 128, 255, 128, 128, 128, 255] := by
          decide
        rw [hmp]
        interval_cases j <;> rfl
      · rw [List.getD_append_right _ _ _ _ (by rw [yuyv_macropixel_length]; omega)]
        rw [yuyv_macropixel_length]
        rw [ih (base + 4) (j - 8) (by omega)]
        have hmod : (j - 8) % 4 = j % 4 := by omega
        rw [hmod]

theorem mjpeg_to_rgba_getD (decoded : Option JpegImage) (width height : Nat)
    (old : Nat → Nat) (i : Nat) (h : i < width * height * 4) :
    (mjpeg_to_rgba decoded width height old).getD i 0
      = mjpeg_byte decoded width height old i := by
  unfold mjpeg_to_rgba
  exact getD_map_range _ _ _ _ h

theorem yuyv_crop_to_rgba_getD (src : Nat → Nat)
    (src_w src_h crop_x crop_y crop_w crop_h y : Nat) (h : y < crop_h) :
    (yuyv_crop_to_rgba src src_w src_h crop_x crop_y crop_w crop_h).getD y (0, []) =
      (y * crop_w * 4,
       yuyv_convert_loop src (((crop_y + y) * src_w + 2 * (crop_x / 2)) * 2)
         ((crop_w + 1) / 2)) := by
  unfold yuyv_crop_to_rgba
  exact getD_map_range _ _ _ _ h

theorem luma_abs_diff_self (l : List Nat) : luma_abs_diff l l = 0 := by
  induction l with
  | nil => rfl
  | cons x xs ih =>
      unfold luma_abs_diff at ih ⊢
      rw [List.zipWith_cons_cons, List.sum_cons]
      simp only [Int.sub_self, Int.natAbs_zero, Nat.zero_add]
      exact ih

/-- When the stored samples already equal the probes of the frame and the
current label is not PRESET_NONE, border_changed reports no change (the
difference is 0, not above the threshold 60) and re-stores the same
samples. -/
theorem border_changed_steady (yuyv : Nat → Nat) (width : Nat) (current : DetectedPreset)
    (hcur : current ≠ DetectedPreset.PRESET_NONE) :
    border_changed yuyv width current (probe_samples yuyv width)
      = (false, probe_samples yuyv width) := by
  unfold border_changed
  rw [if_neg hcur, luma_abs_diff_self]
  rfl

/-- cooldown_tick only touches the cooldown field. -/
theorem cooldown_tick_fields (st : DetectState) :
    (cooldown_tick st).last_detected = st.last_detected ∧
    (cooldown_tick st).crop = st.crop ∧
    (cooldown_tick st).last_border_luma = st.last_border_luma := by
  unfold cooldown_tick
  split <;> exact ⟨rfl, rfl, rfl⟩

/-- On steady samples and a recognized label, the eligible branch only
re-stores the samples and resets the cooldown. -/
theorem auto_detect_eval_steady (yuyv : Nat → Nat) (width height : Nat) (st : DetectState)
    (hlabel : st.last_detected ≠ DetectedPreset.PRESET_NONE)
    (hsteady : st.last_border_luma = probe_samples yuyv width) :
    auto_detect_eval yuyv width height st
      = { st with last_border_luma := probe_samples yuyv width, detect_cooldown := 30 } := by
  unfold auto_detect_eval
  rw [hsteady, border_changed_steady yuyv width st.last_detected hlabel]
  rfl

/-- One auto-detection step on a frame whose probe samples coincide with the
stored samples neither changes the label nor the crop, provided the current
label is a recognized layout (not PRESET_NONE); the stored samples stay at
the probe values. -/
theorem auto_detect_step_steady (yuyv : Nat → Nat) (width height : Nat) (st : DetectState)
    (hlabel : st.last_detected ≠ DetectedPreset.PRESET_NONE)
    (hsteady : st.last_border_luma = probe_samples yuyv width) :
    (auto_detect_step yuyv width height st).last_detected = st.last_detected ∧
    (auto_detect_step yuyv width height st).crop = st.crop ∧
    (auto_detect_step yuyv width height st).last_border_luma = probe_samples yuyv width := by
  unfold auto_detect_step
  by_cases helig : st.auto_detect = true ∧ st.detect_cooldown ≤ 0
  · rw [if_pos helig, auto_detect_eval_steady yuyv width height st hlabel hsteady]
    obtain ⟨f1, f2, f3⟩ := cooldown_tick_fields
      { st with last_border_luma := probe_samples yuyv width, detect_cooldown := 30 }
    exact ⟨f1, f2, f3⟩
  · rw [if_neg helig]
    obtain ⟨f1, f2, f3⟩ := cooldown_tick_fields st
    exact ⟨f1, f2, f3.trans hsteady⟩

/-! ### Claim theorems -/

/-- C1 counterexample. Two-slot context with slot 0 already Acquired
(current_index = 0): a second acquire while the driver has slot 1 ready is
not rejected and does not return the already-acquired slot 0; it dequeues
slot 1, leaving two slots Acquired at once, and after the following
releaseFrame slot 0 is still Acquired: its bookkeeping was silently lost. -/
theorem C1_counterexample :
    (capture_get_frame_raw ⟨[SlotState.Acquired, SlotState.Queued], 0⟩ (some 1)).2 = some 1 ∧
    (capture_get_frame_raw ⟨[SlotState.Acquired, SlotState.Queued], 0⟩ (some 1)).1.slots
      = [SlotState.Acquired, SlotState.Acquired] ∧
    (capture_return_buffer
        (capture_get_frame_raw ⟨[SlotState.Acquired, SlotState.Queued], 0⟩ (some 1)).1).slots
      = [SlotState.Acquired, SlotState.Queued] := by
  decide

/-- C1 (amended): capture_get_frame_raw does not guard double acquisition.
Whenever the context already holds an Acquired slot (current_index) and the
driver dequeues a different ready slot i, the call succeeds with slot i,
current_index is overwritten, the previously acquired slot remains Acquired,
and it remains Acquired even after capture_return_buffer, which re-queues
only the new slot: the first slot is silently lost from the bookkeeping. -/
theorem C1_amended (st : BufManagerState) (i : Nat)
    (hne : i ≠ st.current_index)
    (hacq : st.slots.getD st.current_index SlotState.Queued = SlotState.Acquired) :
    (capture_get_frame_raw st (some i)).2 = some i ∧
    (capture_get_frame_raw st (some i)).1.current_index = i ∧
    (capture_get_frame_raw st (some i)).1.slots.getD st.current_index SlotState.Queued
      = SlotState.Acquired ∧
    (capture_return_buffer (capture_get_frame_raw st (some i)).1).slots.getD
        st.current_index SlotState.Queued = SlotState.Acquired := by
  refine ⟨rfl, rfl, ?_, ?_⟩
  · show (st.slots.set i SlotState.Acquired).getD st.current_index SlotState.Queued = _
    rw [getD_set_ne _ _ _ _ _ hne]
    exact hacq
  · show ((st.slots.set i SlotState.Acquired).set i SlotState.Queued).getD
        st.current_index SlotState.Queued = _
    rw [getD_set_ne _ _ _ _ _ hne, getD_set_ne _ _ _ _ _ hne]
    exact hacq

/-- C1 witness: the amended statement at the concrete two-slot scenario. -/
theorem C1_amended_witness :
    (capture_get_frame_raw ⟨[SlotState.Acquired, SlotState.Queued], 0⟩ (some 1)).2 = some 1 ∧
    (capture_get_frame_raw ⟨[SlotState.Acquired, SlotState.Queued], 0⟩ (some 1)).1.current_index
      = 1 ∧
    (capture_get_frame_raw ⟨[SlotState.Acquired, SlotState.Queued], 0⟩
        (some 1)).1.slots.getD 0 SlotState.Queued = SlotState.Acquired ∧
    (capture_return_buffer (capture_get_frame_raw
        ⟨[SlotState.Acquired, SlotState.Queued], 0⟩ (some 1)).1).slots.getD 0 SlotState.Queued
      = SlotState.Acquired :=
  C1_amended ⟨[SlotState.Acquired, SlotState.Queued], 0⟩ 1 (by decide) (by decide)

/-- C2 counterexample. A driver that grants exactly the requested count is
legal, and opening with requested count 7 then yields a context whose
buffer_count is 7, outside [1,4]: the open operation performs no clamping. -/
theorem C2_counterexample :
    capture_open_buffers driverGrantsRequest 7
      = some { width := 1920, height := 1080, format := PixFmt.YUYV, buffer_count := 7 } ∧
    ¬ (7 ≤ 4) := by
  decide

/-- C2 (amended): capture_open_buffers does not clamp the requested buffer
count; the REQBUFS request carries num_buffers verbatim and the context
records whatever count the driver grants for it. The [1,4] range is
maintained only by the caller: the buffer-count key handler cycles
1 - 2 - 3 - 4 - 1, so every value it produces from a value in [1,4] is again
in [1,4]. -/
theorem C2_amended :
    (∀ (d : DriverModel) (n : Nat) (ctx : CaptureCtx),
        capture_open_buffers d n = some ctx → ctx.buffer_count = d.grant_buffers n) ∧
    (∀ b : Int, 1 ≤ b → b ≤ 4 → 1 ≤ next_buffer_count b ∧ next_buffer_count b ≤ 4) := by
  constructor
  · intro d n ctx h
    unfold capture_open_buffers at h
    split_ifs at h
    all_goals (cases Option.some.inj h; rfl)
  · intro b h1 h4
    unfold next_buffer_count
    split <;> omega

/-- C2 witness: the amended statement at the cooperative driver with
requested count 3, and the cycle step at 4. -/
theorem C2_amended_witness :
    ({ width := 1920, height := 1080, format := PixFmt.YUYV, buffer_count := 3 } :
        CaptureCtx).buffer_count = driverGrantsRequest.grant_buffers 3 ∧
    (1 ≤ next_buffer_count 4 ∧ next_buffer_count 4 ≤ 4) :=
  ⟨C2_amended.1 driverGrantsRequest 3 _ (by decide), C2_amended.2 4 (by decide) (by decide)⟩

/-- C3 counterexample. On frameB (400x260), the right, top and bottom edge
scans all fail to find a transition, yet scan_for_game_area does not return
NotFound: it accepts the rectangle (148, 0, 252, 260), because a failed
right/top/bottom scan merely leaves that edge at the frame boundary. -/
theorem C3_counterexample :
    right_edge_find frameB 400 260 (scan_border_luma frameB 400 260) = none ∧
    top_edge_find frameB 400 260 (scan_border_luma frameB 400 260)
      (scan_center_x frameB 400 260) = none ∧
    bottom_edge_find frameB 400 260 (scan_border_luma frameB 400 260)
      (scan_bottom_x frameB 400 260) = none ∧
    scan_for_game_area frameB 400 260 = some (148, 0, 252, 260) := by
  decide

/-- C3 (amended): the manual scan returns NotFound exactly when
left_edge < 50, or the detected width right_edge - left_edge is below 200,
or the detected height bottom_edge - top_edge is below 200. A failed left
scan leaves left_edge = 0 and therefore forces NotFound, but failed
right/top/bottom scans only leave those edges at the frame boundary and do
not by themselves cause rejection. -/
theorem C3_amended (yuyv : Nat → Nat) (width height : Nat) :
    (scan_for_game_area yuyv width height = none ↔
      scan_left yuyv width height < 50 ∨
      scan_right yuyv width height - scan_left yuyv width height < 200 ∨
      scan_bottom yuyv width height - scan_top yuyv width height < 200) ∧
    (left_edge_find yuyv width height (scan_border_luma yuyv width height) = none →
      scan_for_game_area yuyv width height = none) := by
  constructor
  · unfold scan_for_game_area
    split
    next h => exact iff_of_true rfl h
    next h => exact iff_of_false (by simp) h
  · intro hfail
    have h0 : scan_left yuyv width height = 0 := by
      unfold scan_left left_edge
      rw [hfail]
      rfl
    unfold scan_for_game_area
    rw [if_pos (Or.inl (by rw [h0]; omega))]

/-- C3 witness: the amended implication at the all-black frame, whose left
scan finds no transition. -/
theorem C3_amended_witness : scan_for_game_area frameZero 1920 1080 = none :=
  (C3_amended frameZero 1920 1080).2 (by decide)

/-- C4 counterexample. On the all-black frame the manual scan returns
NotFound, and then the scan handler leaves auto_detect enabled and the
stored label unchanged (here PRESET_NES_SWITCH): a NotFound outcome does not
disable the continuous auto-classifier and does not reset the label. -/
theorem C4_counterexample :
    scan_for_game_area frameZero 1920 1080 = none ∧
    (process_border_scan frameZero 1920 1080
        { auto_detect := true, last_detected := DetectedPreset.PRESET_NES_SWITCH,
          last_border_luma := [0, 0, 0, 0], detect_cooldown := 0,
          crop := (448, 83, 1024, 912) }).auto_detect = true ∧
    (process_border_scan frameZero 1920 1080
        { auto_detect := true, last_detected := DetectedPreset.PRESET_NES_SWITCH,
          last_border_luma := [0, 0, 0, 0], detect_cooldown := 0,
          crop := (448, 83, 1024, 912) }).last_detected
      = DetectedPreset.PRESET_NES_SWITCH := by
  decide

/-- C4 (amended): only a manual scan that finds a rectangle disables the
auto-classifier and resets the stored label to PRESET_NONE (installing the
rectangle as the crop); a scan returning NotFound leaves the whole state,
auto_detect and label included, unchanged. -/
theorem C4_amended (yuyv : Nat → Nat) (width height : Nat) (st : DetectState) :
    (∀ r, scan_for_game_area yuyv width height = some r →
        process_border_scan yuyv width height st
          = { st with crop := r, auto_detect := false,
                      last_detected := DetectedPreset.PRESET_NONE }) ∧
    (scan_for_game_area yuyv width height = none →
        process_border_scan yuyv width height st = st) := by
  constructor
  · intro r h
    obtain ⟨x, y, w, hgt⟩ := r
    unfold process_border_scan
    rw [h]
  · intro h
    unfold process_border_scan
    rw [h]

/-- C4 witness: the amended statement at frameB (scan succeeds) and at the
all-black frame (scan fails). -/
theorem C4_amended_witness :
    process_border_scan frameB 400 260
        { auto_detect := true, last_detected := DetectedPreset.PRESET_SNES_SWITCH,
          last_border_luma := [], detect_cooldown := 3, crop := (0, 0, 1920, 1080) }
      = { auto_detect := false, last_detected := DetectedPreset.PRESET_NONE,
          last_border_luma := [], detect_cooldown := 3, crop := (148, 0, 252, 260) } ∧
    process_border_scan frameZero 1920 1080
        { auto_detect := true, last_detected := DetectedPreset.PRESET_SNES_SWITCH,
          last_border_luma := [], detect_cooldown := 3, crop := (0, 0, 1920, 1080) }
      = { auto_detect := true, last_detected := DetectedPreset.PRESET_SNES_SWITCH,
          last_border_luma := [], detect_cooldown := 3, crop := (0, 0, 1920, 1080) } :=
  ⟨(C4_amended frameB 400 260 _).1 (148, 0, 252, 260) (by decide),
   (C4_amended frameZero 1920 1080 _).2 (by decide)⟩

/-- C5 counterexample. After a failed decode the compressed path memsets the
whole frame to 0, so the alpha byte of the first pixel (buffer index 3,
inside the 1x1 frame) is 0, not 255. -/
theorem C5_counterexample :
    3 < 1 * 1 * 4 ∧ 3 % 4 = 3 ∧
    (mjpeg_to_rgba none 1 1 (fun _ => 7)).getD 3 0 = 0 := by
  decide

/-- C5 (amended): the packed path writes alpha 255 at every channel-3 byte;
the compressed path writes alpha 255 at every channel-3 byte inside the
region actually covered by the decoded image; but the decode-failure
fallback frame is all zero bytes, alpha included. -/
theorem C5_amended :
    (∀ (src : Nat → Nat) (width height j : Nat),
        j < 8 * (width * height / 2) → j % 4 = 3 →
        (yuyv_to_rgba_fast src width height).getD j 0 = 255) ∧
    (∀ (img : JpegImage) (width height : Nat) (old : Nat → Nat) (i : Nat),
        i < width * height * 4 → i % 4 = 3 →
        i / 4 / width < height → i / 4 / width < img.height →
        i / 4 % width < width → i / 4 % width < img.width →
        (mjpeg_to_rgba (some img) width height old).getD i 0 = 255) ∧
    (∀ (width height : Nat) (old : Nat → Nat) (i : Nat),
        i < width * height * 4 →
        (mjpeg_to_rgba none width height old).getD i 0 = 0) := by
  refine ⟨?_, ?_, ?_⟩
  · intro src width height j hj hm
    exact yuyv_convert_loop_alpha src (width * height / 2) 0 j hj hm
  · intro img width height old i hi hm hy hyimg hx hximg
    rw [mjpeg_to_rgba_getD _ _ _ _ _ hi]
    show (if i / 4 / width < height ∧ i / 4 / width < img.height ∧
            i / 4 % width < width ∧ i / 4 % width < img.width then
            if i % 4 = 0 then (img.pixel (i / 4 % width) (i / 4 / width)).1
            else if i % 4 = 1 then (img.pixel (i / 4 % width) (i / 4 / width)).2.1
            else if i % 4 = 2 then (img.pixel (i / 4 % width) (i / 4 / width)).2.2
            else 255
          else old i) = 255
    rw [if_pos ⟨hy, hyimg, hx, hximg⟩, hm]
    norm_num
  · intro width height old i hi
    rw [mjpeg_to_rgba_getD _ _ _ _ _ hi]
    rfl

/-- C5 witness: the amended statement at concrete inputs for all three
paths. -/
theorem C5_amended_witness :
    (yuyv_to_rgba_fast (fun _ => 0) 2 1).getD 3 0 = 255 ∧
    (mjpeg_to_rgba (some ⟨1, 1, fun _ _ => (9, 9, 9)⟩) 1 1 (fun _ => 7)).getD 3 0 = 255 ∧
    (mjpeg_to_rgba none 1 1 (fun _ => 7)).getD 0 0 = 0 :=
  ⟨C5_amended.1 (fun _ => 0) 2 1 3 (by decide) (by decide),
   C5_amended.2.1 ⟨1, 1, fun _ _ => (9, 9, 9)⟩ 1 1 (fun _ => 7) 3 (by decide) (by decide)
     (by decide) (by decide) (by decide) (by decide),
   C5_amended.2.2 1 1 (fun _ => 7) 0 (by decide)⟩

/-- C6 counterexample. frameA is a single fixed frame (so its probe-point
samples are identical from cycle to cycle, and the stored samples already
equal them), the current label is PRESET_NONE (Unframed) and the cooldown
has elapsed: one detection step changes the label to PRESET_NES_SWITCH and
installs its crop rectangle, so with starting label Unframed identical
frames do change the label. -/
theorem C6_counterexample :
    probe_samples frameA 1920 = [0, 0, 0, 0] ∧
    (auto_detect_step frameA 1920 1080
        { auto_detect := true, last_detected := DetectedPreset.PRESET_NONE,
          last_border_luma := [0, 0, 0, 0], detect_cooldown := 0,
          crop := (0, 0, 1920, 1080) }).last_detected = DetectedPreset.PRESET_NES_SWITCH ∧
    (auto_detect_step frameA 1920 1080
        { auto_detect := true, last_detected := DetectedPreset.PRESET_NONE,
          last_border_luma := [0, 0, 0, 0], detect_cooldown := 0,
          crop := (0, 0, 1920, 1080) }).crop = (448, 83, 1024, 912) := by
  decide

/-- C6 (amended): when the current label is a recognized layout (not
PRESET_NONE) and the stored probe samples already equal the probe samples of
the (unchanging) frame, any number of detection steps leaves both the label
and the crop rectangle unchanged; only from the Unframed label does the
always-re-check rule re-run classification, which can change the label. -/
theorem C6_amended (yuyv : Nat → Nat) (width height : Nat) (st : DetectState) (n : Nat)
    (hlabel : st.last_detected ≠ DetectedPreset.PRESET_NONE)
    (hsteady : st.last_border_luma = probe_samples yuyv width) :
    ((auto_detect_step yuyv width height)^[n] st).last_detected = st.last_detected ∧
    ((auto_detect_step yuyv width height)^[n] st).crop = st.crop := by
  induction n generalizing st with
  | zero => exact ⟨rfl, rfl⟩
  | succ k ih =>
      rw [Function.iterate_succ_apply]
      obtain ⟨h1, h2, h3⟩ := auto_detect_step_steady yuyv width height st hlabel hsteady
      have hk := ih (auto_detect_step yuyv width height st) (by rw [h1]; exact hlabel) h3
      exact ⟨hk.1.trans h1, hk.2.trans h2⟩

/-- C6 witness: the amended statement over two steps on the all-black frame
starting from the PRESET_NES_SWITCH label in steady state. -/
theorem C6_amended_witness :
    ((auto_detect_step frameZero 1920 1080)^[2]
        { auto_detect := true, last_detected := DetectedPreset.PRESET_NES_SWITCH,
          last_border_luma := [0, 0, 0, 0], detect_cooldown := 0,
          crop := (448, 83, 1024, 912) }).last_detected = DetectedPreset.PRESET_NES_SWITCH ∧
    ((auto_detect_step frameZero 1920 1080)^[2]
        { auto_detect := true, last_detected := DetectedPreset.PRESET_NES_SWITCH,
          last_border_luma := [0, 0, 0, 0], detect_cooldown := 0,
          crop := (448, 83, 1024, 912) }).crop = (448, 83, 1024, 912) :=
  C6_amended frameZero 1920 1080
    { auto_detect := true, last_detected := DetectedPreset.PRESET_NES_SWITCH,
      last_border_luma := [0, 0, 0, 0], detect_cooldown := 0,
      crop := (448, 83, 1024, 912) } 2 (by decide) (by decide)

/-- C7: on the compressed path a decode failure (or truncated frame data) is
non-fatal: capture_get_frame still returns a frame (never NULL when a raw
frame was dequeued), and that frame is the fully black buffer of the full
width*height dimensions (every one of the width*height*4 bytes is 0). -/
theorem C7_decode_failure_black (width height : Nat) (old src : Nat → Nat) :
    capture_get_frame PixFmt.MJPEG width height (some src) none old
      = some (List.replicate (width * height * 4) 0) := by
  show some (mjpeg_to_rgba none width height old) = _
  congr 1
  unfold mjpeg_to_rgba
  have h : mjpeg_byte none width height old = fun _ => 0 := rfl
  rw [h, List.map_const', List.length_range]

/-- C8: converting any frame all of whose bytes are 128 (luma 128, both
chroma samples 128) yields 128 on every color channel and 255 on every alpha
channel of every output pixel. -/
theorem C8_midgray (src : Nat → Nat) (width height : Nat) (huniform : ∀ i, src i = 128)
    (j : Nat) (hj : j < 8 * (width * height / 2)) :
    (yuyv_to_rgba_fast src width height).getD j 0 = if j % 4 = 3 then 255 else 128 :=
  yuyv_convert_loop_gray src huniform (width * height / 2) 0 j hj

/-- C8 witness: bytes 3 (alpha) and 4 (red of the second pixel) of a 2x2
all-128 frame. -/
theorem C8_midgray_witness :
    (yuyv_to_rgba_fast (fun _ => 128) 2 2).getD 3 0 = (if 3 % 4 = 3 then 255 else 128) ∧
    (yuyv_to_rgba_fast (fun _ => 128) 2 2).getD 4 0 = (if 4 % 4 = 3 then 255 else 128) :=
  ⟨C8_midgray (fun _ => 128) 2 2 (fun _ => rfl) 3 (by decide),
   C8_midgray (fun _ => 128) 2 2 (fun _ => rfl) 4 (by decide)⟩

/-- C9 counterexample. The crop (x=0, y=0, w=3, h=2) lies entirely inside an
8x4 source, yet row 0 of the converted output is not 3*4 bytes (it is 16),
and the final row ends past the 3*2*4 byte output extent: for an odd crop
width the output is not exactly crop_w x crop_h. -/
theorem C9_counterexample :
    0 + 3 ≤ 8 ∧ 0 + 2 ≤ 4 ∧
    ((yuyv_crop_to_rgba frameZero 8 4 0 0 3 2).getD 0 (0, [])).2.length ≠ 3 * 4 ∧
    ((yuyv_crop_to_rgba frameZero 8 4 0 0 3 2).getD 1 (0, [])).1
        + ((yuyv_crop_to_rgba frameZero 8 4 0 0 3 2).getD 1 (0, [])).2.length
      ≠ 3 * 2 * 4 := by
  decide

/-- C9 (amended): for every crop with an even width, cropped conversion
produces exactly crop_h rows; row y is written at destination byte offset
y*crop_w*4 and holds exactly crop_w*4 bytes (so the output is exactly
crop_w x crop_h pixels), and it converts the source data starting at byte
((crop_y+y)*src_w + (crop_x - crop_x % 2))*2, i.e. the source origin is the
crop x rounded down to an even value with y unchanged. Odd crop widths write
one extra pixel per row (claim C10). -/
theorem C9_amended (src : Nat → Nat) (src_w src_h crop_x crop_y crop_w crop_h : Nat)
    (heven : crop_w % 2 = 0) :
    (yuyv_crop_to_rgba src src_w src_h crop_x crop_y crop_w crop_h).length = crop_h ∧
    (∀ y, y < crop_h →
      (yuyv_crop_to_rgba src src_w src_h crop_x crop_y crop_w crop_h).getD y (0, []) =
        (y * crop_w * 4,
         yuyv_convert_loop src (((crop_y + y) * src_w + (crop_x - crop_x % 2)) * 2)
           (crop_w / 2)) ∧
      ((yuyv_crop_to_rgba src src_w src_h crop_x crop_y crop_w crop_h).getD y (0, [])).2.length
        = crop_w * 4) := by
  have hx : 2 * (crop_x / 2) = crop_x - crop_x % 2 := by omega
  have hw : (crop_w + 1) / 2 = crop_w / 2 := by omega
  refine ⟨by simp [yuyv_crop_to_rgba], fun y hy => ?_⟩
  rw [yuyv_crop_to_rgba_getD src src_w src_h crop_x crop_y crop_w crop_h y hy]
  refine ⟨by rw [hx, hw], ?_⟩
  show (yuyv_convert_loop src _ ((crop_w + 1) / 2)).length = crop_w * 4
  rw [yuyv_convert_loop_length, hw]
  omega

/-- C9 witness: the amended statement at the even crop (x=1, y=1, w=4, h=2)
of an 8x4 source (x is rounded down to 0). -/
theorem C9_amended_witness :
    (yuyv_crop_to_rgba frameZero 8 4 1 1 4 2).length = 2 ∧
    ((yuyv_crop_to_rgba frameZero 8 4 1 1 4 2).getD 0 (0, [])).2.length = 4 * 4 :=
  ⟨(C9_amended frameZero 8 4 1 1 4 2 (by decide)).1,
   (((C9_amended frameZero 8 4 1 1 4 2 (by decide)).2 0 (by decide)).2)⟩

/-- C10: for every crop with an odd width, each output row of the cropped
converter holds crop_w*4 + 4 bytes, overrunning its crop_w*4-byte slot by 4
bytes (the macropixel loop runs (crop_w+1)/2 steps of two pixels while the
destination rows advance only crop_w pixels), and the final row ends exactly
4 bytes past the end of the crop_w*crop_h*4-byte output buffer. -/
theorem C10_odd_crop_width_overrun (src : Nat → Nat)
    (src_w src_h crop_x crop_y crop_w crop_h : Nat)
    (hodd : crop_w % 2 = 1) (hpos : 0 < crop_h) :
    (∀ y, y < crop_h →
        ((yuyv_crop_to_rgba src src_w src_h crop_x crop_y crop_w crop_h).getD y (0, [])).2.length
          = crop_w * 4 + 4) ∧
    (((yuyv_crop_to_rgba src src_w src_h crop_x crop_y crop_w crop_h).getD
          (crop_h - 1) (0, [])).1
        + ((yuyv_crop_to_rgba src src_w src_h crop_x crop_y crop_w crop_h).getD
            (crop_h - 1) (0, [])).2.length
      = crop_w * crop_h * 4 + 4) := by
  have hrow : ∀ y, y < crop_h →
      ((yuyv_crop_to_rgba src src_w src_h crop_x crop_y crop_w crop_h).getD y (0, [])).2.length
        = crop_w * 4 + 4 := by
    intro y hy
    rw [yuyv_crop_to_rgba_getD src src_w src_h crop_x crop_y crop_w crop_h y hy]
    show (yuyv_convert_loop src _ ((crop_w + 1) / 2)).length = crop_w * 4 + 4
    rw [yuyv_convert_loop_length]
    omega
  refine ⟨hrow, ?_⟩
  obtain ⟨k, rfl⟩ : ∃ k, crop_h = k + 1 := ⟨crop_h - 1, by omega⟩
  have hk : k + 1 - 1 = k := rfl
  rw [hk, hrow k (by omega),
    yuyv_crop_to_rgba_getD src src_w src_h crop_x crop_y crop_w (k + 1) k (by omega)]
  show k * crop_w * 4 + (crop_w * 4 + 4) = crop_w * (k + 1) * 4 + 4
  ring

/-- C10 witness: the odd crop (w=3, h=2): each row holds 16 = 3*4+4 bytes and
the final row ends at byte 28 = 3*2*4 + 4. -/
theorem C10_odd_crop_width_overrun_witness :
    ((yuyv_crop_to_rgba frameZero 8 4 0 0 3 2).getD 0 (0, [])).2.length = 3 * 4 + 4 ∧
    ((yuyv_crop_to_rgba frameZero 8 4 0 0 3 2).getD 1 (0, [])).1
        + ((yuyv_crop_to_rgba frameZero 8 4 0 0 3 2).getD 1 (0, [])).2.length
      = 3 * 2 * 4 + 4 :=
  ⟨(C10_odd_crop_width_overrun frameZero 8 4 0 0 3 2 (by decide) (by decide)).1 0 (by decide),
   (C10_odd_crop_width_overrun frameZero 8 4 0 0 3 2 (by decide) (by decide)).2⟩

end Capturedisp
